import Mathlib

/-!
Shallow embedding of the `fas_exp` repository (dual-stream RGB+Depth
face anti-spoofing network) and proofs about its specification claims.

Tensors that the Python code treats purely elementwise are modelled as
`List ℝ` (a flattening of the tensor); batched images are modelled as
nested lists.  Arithmetic is exact real arithmetic.
-/

/-! ## Elementwise tensor helpers -/

/-- Mean of a list of reals, `torch.mean` on a flattened tensor. -/
noncomputable def listMean (xs : List ℝ) : ℝ := xs.sum / xs.length

/-! ## `src/util/loss.py` -/

/-- `torch.nn.functional.binary_cross_entropy(inputs, targets, reduce=False)`:
elementwise `-(t*log(x) + (1-t)*log(1-x))`. -/
noncomputable def binary_cross_entropy (inputs targets : List ℝ) : List ℝ :=
  List.zipWith (fun x t => -(t * Real.log x + (1 - t) * Real.log (1 - x))) inputs targets

/-- Hyperparameters of `CMFLoss` (`src/util/loss.py`). -/
structure CMFLoss where
  alpha : ℝ
  gamma : ℕ
  binary : Bool
  multiplier : ℝ
  sg : Bool

/-- The default constructor arguments of `CMFLoss.__init__`:
`alpha=1, gamma=2, binary=False, multiplier=2, sg=False`. -/
def CMFLoss.default : CMFLoss := ⟨1, 2, false, 2, false⟩

/-- `eps = 0.000000001` in `CMFLoss.forward`. -/
noncomputable def cmflEps : ℝ := 0.000000001

/-- The elementwise tensor
`wt_a = ((pt_b + eps)*(multiplier*pt_a*pt_b))/(pt_a + pt_b + eps)` of
`CMFLoss.forward` (the `sg` branch computes the same values, since
`.detach()` is the identity on values). -/
noncomputable def cmflWtA (m : ℝ) (pt_a pt_b : List ℝ) : List ℝ :=
  List.zipWith (fun pa pb => ((pb + cmflEps) * (m * pa * pb)) / (pa + pb + cmflEps)) pt_a pt_b

/-- The elementwise tensor
`wt_b = ((pt_a + eps)*(multiplier*pt_a*pt_b))/(pt_a + pt_b + eps)` of
`CMFLoss.forward`. -/
noncomputable def cmflWtB (m : ℝ) (pt_a pt_b : List ℝ) : List ℝ :=
  List.zipWith (fun pa pb => ((pa + cmflEps) * (m * pa * pb)) / (pa + pb + cmflEps)) pt_a pt_b

/-- `CMFLoss.forward(inputs_a, inputs_b, targets)` over flattened tensors.
Mirrors `src/util/loss.py` line by line; `torch.exp` is `Real.exp`.
The two branches of `if self.sg` compute the same real values because
`.detach()` only cuts the autograd graph. -/
noncomputable def CMFLoss.forward (self : CMFLoss) (inputs_a inputs_b targets : List ℝ) : ℝ :=
  let bce_loss_a := binary_cross_entropy inputs_a targets
  let bce_loss_b := binary_cross_entropy inputs_b targets
  let pt_a := bce_loss_a.map (fun x => Real.exp (-x))
  let pt_b := bce_loss_b.map (fun x => Real.exp (-x))
  let wt_a := if self.sg then cmflWtA self.multiplier pt_a pt_b
              else cmflWtA self.multiplier pt_a pt_b
  let wt_b := if self.sg then cmflWtB self.multiplier pt_a pt_b
              else cmflWtB self.multiplier pt_a pt_b
  let wt_a := if self.binary then List.zipWith (fun w t => w * (1 - t)) wt_a targets else wt_a
  let wt_b := if self.binary then List.zipWith (fun w t => w * (1 - t)) wt_b targets else wt_b
  let f_loss_a := List.zipWith (fun w l => self.alpha * (1 - w) ^ self.gamma * l) wt_a bce_loss_a
  let f_loss_b := List.zipWith (fun w l => self.alpha * (1 - w) ^ self.gamma * l) wt_b bce_loss_b
  0.5 * listMean f_loss_a + 0.5 * listMean f_loss_b

/-- The closed-form value claimed by the specification for
`CMFLoss.forward` at the default hyperparameters:
`0.5*mean((1-w_a)^2*BCE(a,t)) + 0.5*mean((1-w_b)^2*BCE(b,t))` with
`p_a = exp(-BCE(a,t))`, `p_b = exp(-BCE(b,t))`, `eps = 1e-9`,
`w_a = (p_b+eps)*(2*p_a*p_b)/(p_a+p_b+eps)` and
`w_b = (p_a+eps)*(2*p_a*p_b)/(p_a+p_b+eps)`.  This definition follows
the specification's words, to be compared with `CMFLoss.forward`. -/
noncomputable def cmflSpecFormula (a b t : List ℝ) : ℝ :=
  let bce_a := binary_cross_entropy a t
  let bce_b := binary_cross_entropy b t
  let p_a := bce_a.map (fun x => Real.exp (-x))
  let p_b := bce_b.map (fun x => Real.exp (-x))
  let eps : ℝ := 1e-9
  let w_a := List.zipWith (fun pa pb => (pb + eps) * (2 * pa * pb) / (pa + pb + eps)) p_a p_b
  let w_b := List.zipWith (fun pa pb => (pa + eps) * (2 * pa * pb) / (pa + pb + eps)) p_a p_b
  0.5 * listMean (List.zipWith (fun w l => (1 - w) ^ 2 * l) w_a bce_a) +
    0.5 * listMean (List.zipWith (fun w l => (1 - w) ^ 2 * l) w_b bce_b)

/-- `Total_loss` (`src/util/loss.py`).  `criterion_cel` is the framework
primitive `nn.CrossEntropyLoss()`, kept abstract as a function field since
its numeric definition lives in PyTorch, not in this repository. -/
structure Total_loss where
  lamb : ℝ
  criterion_cel : List ℝ → List ℝ → ℝ
  criterion_cmfl : CMFLoss

/-- `Total_loss.__init__` with the default `lamb=0.7`:
`criterion_cmfl = CMFLoss()` with all defaults. -/
def Total_loss.mkDefault (cel : List ℝ → List ℝ → ℝ) : Total_loss :=
  ⟨0.7, cel, CMFLoss.default⟩

/-- `Total_loss.forward(p, q, r, targets)`:
`(1-lamb)*cel(r,targets) + lamb*(cmfl(p,q,targets)+cmfl(q,p,targets))`. -/
noncomputable def Total_loss.forward (self : Total_loss) (p q r targets : List ℝ) : ℝ :=
  let loss_r := self.criterion_cel r targets
  let loss_pq := self.criterion_cmfl.forward p q targets + self.criterion_cmfl.forward q p targets
  (1 - self.lamb) * loss_r + self.lamb * loss_pq

/-! ## `src/model/cd_resnet.py` — structural embedding

The module graph built by the constructors is modelled as a small layer
AST; numeric forward semantics of the backbone are not needed by the
structural claims. -/

/-- Layer AST for the modules built in `cd_resnet.py`.  Convolution
constructors record `(in_channels, out_channels, kernel_size, stride,
padding, groups, dilation, bias)`. -/
inductive Layer where
  /-- `nn.Conv2d`. -/
  | conv2d : ℕ → ℕ → ℕ → ℕ → ℕ → ℕ → ℕ → Bool → Layer
  /-- Modelled from the spec: `CD_Conv2d`, the custom central-difference
  convolution imported from `model/conv.py`, a file absent from the
  sources; the constructor records its configuration opaquely. -/
  | cdConv2d : ℕ → ℕ → ℕ → ℕ → ℕ → ℕ → ℕ → Bool → Layer
  /-- `nn.BatchNorm2d(n)`. -/
  | batchNorm2d : ℕ → Layer
  /-- Modelled from the spec: `Sim_AM`, the attention module imported from
  `model/attention.py`, a file absent from the sources. -/
  | simAM : ℕ → Layer
  /-- `nn.Sequential` of two modules. -/
  | seq2 : Layer → Layer → Layer
  deriving DecidableEq

/-- `conv3x3(in_planes, out_planes, stride, groups, dilation)`:
returns `CD_Conv2d(in_planes, out_planes, kernel_size=3, stride=stride,
padding=dilation, groups=groups, bias=False, dilation=dilation)`. -/
def conv3x3 (in_planes out_planes stride groups dilation : ℕ) : Layer :=
  Layer.cdConv2d in_planes out_planes 3 stride dilation groups dilation false

/-- `conv1x1(in_planes, out_planes, stride)`: a plain `nn.Conv2d` with
kernel 1 and `bias=False` (padding 0, groups 1, dilation 1 by default). -/
def conv1x1 (in_planes out_planes stride : ℕ) : Layer :=
  Layer.conv2d in_planes out_planes 1 stride 0 1 1 false

/-- The two exceptions `BasicBlock.__init__` can raise. -/
inductive InitError where
  | valueError : InitError
  | notImplementedError : InitError
  deriving DecidableEq

/-- The modules stored on a constructed `BasicBlock`. -/
structure BasicBlock where
  conv1 : Layer
  bn1 : Layer
  conv2 : Layer
  bn2 : Layer
  downsample : Option Layer
  stride : ℕ
  deriving DecidableEq

/-- `BasicBlock.expansion = 1`. -/
def BasicBlock.expansion : ℕ := 1

/-- `BasicBlock.__init__(inplanes, planes, stride, downsample, groups,
base_width, dilation, norm_layer=None, att_mod)` with the default
`norm_layer = nn.BatchNorm2d`.  Raising is modelled with `Except`:
`ValueError` when `groups != 1 or base_width != 64`, then
`NotImplementedError` when `dilation > 1`; otherwise `conv1 =
conv3x3(inplanes, planes, stride)`, `conv2 = conv3x3(planes, planes)`,
and when `att_mod == 'SimAM'` the stored `conv2` is
`nn.Sequential(conv2, Sim_AM(planes))`. -/
def BasicBlock.init (inplanes planes stride : ℕ) (downsample : Option Layer)
    (groups base_width dilation : ℕ) (att_mod : Option String) :
    Except InitError BasicBlock :=
  if groups ≠ 1 ∨ base_width ≠ 64 then Except.error InitError.valueError
  else if dilation > 1 then Except.error InitError.notImplementedError
  else
    let conv2_base := conv3x3 planes planes 1 1 1
    Except.ok
      { conv1 := conv3x3 inplanes planes stride 1 1
        bn1 := Layer.batchNorm2d planes
        conv2 := if att_mod = some "SimAM" then Layer.seq2 conv2_base (Layer.simAM planes)
                 else conv2_base
        bn2 := Layer.batchNorm2d planes
        downsample := downsample
        stride := stride }

/-- The loop `for _ in range(1, blocks)` in `ResNet._make_layer`: the
remaining `blocks - 1` blocks, each built with the updated `inplanes`,
default stride 1 and no downsample. -/
def makeLayerRest (inplanes planes n groups base_width dilation : ℕ)
    (att_mod : Option String) : Except InitError (List BasicBlock) :=
  (List.range n).mapM
    (fun _ => BasicBlock.init inplanes planes 1 none groups base_width dilation att_mod)

/-- `ResNet._make_layer(block=BasicBlock, planes, blocks, stride, dilate,
att_mod)`.  The mutable `self.inplanes` and `self.dilation` are passed in
and returned explicitly. -/
def ResNet.makeLayer (inplanes dilation planes blocks stride : ℕ) (dilate : Bool)
    (groups base_width : ℕ) (att_mod : Option String) :
    Except InitError (List BasicBlock × ℕ × ℕ) := do
  let previous_dilation := dilation
  let dilation := if dilate then dilation * stride else dilation
  let stride := if dilate then 1 else stride
  let downsample : Option Layer :=
    if stride ≠ 1 ∨ inplanes ≠ planes * BasicBlock.expansion then
      some (Layer.seq2 (conv1x1 inplanes (planes * BasicBlock.expansion) stride)
        (Layer.batchNorm2d (planes * BasicBlock.expansion)))
    else none
  let first ← BasicBlock.init inplanes planes stride downsample groups base_width
    previous_dilation att_mod
  let inplanes := planes * BasicBlock.expansion
  let rest ← makeLayerRest inplanes planes (blocks - 1) groups base_width dilation att_mod
  pure (first :: rest, inplanes, dilation)

/-- The modules of `ResNet` that the claims are about: the stem
convolution `conv1` and the four residual layers. -/
structure ResNet where
  conv1 : Layer
  layer1 : List BasicBlock
  layer2 : List BasicBlock
  layer3 : List BasicBlock
  layer4 : List BasicBlock
  deriving DecidableEq

/-- `ResNet.__init__(block=BasicBlock, layers, groups=1,
width_per_group=64, in_mod, att_mod)` with the default
`replace_stride_with_dilation = [False, False, False]`: the stem is
`CD_Conv2d(1 or 3, 64, kernel_size=7, stride=2, padding=3, bias=False)`
(1 input channel when `in_mod == 'Depth'`), and the four layers are
built by `_make_layer` threading `inplanes` (from 64) and `dilation`
(from 1). -/
def ResNet.init (layers : List ℕ) (groups width_per_group : ℕ)
    (in_mod att_mod : Option String) : Except InitError ResNet := do
  let inplanes := 64
  let dilation := 1
  let conv1 := if in_mod = some "Depth" then Layer.cdConv2d 1 inplanes 7 2 3 1 1 false
               else Layer.cdConv2d 3 inplanes 7 2 3 1 1 false
  let (l1, inplanes, dilation) ← ResNet.makeLayer inplanes dilation 64 (layers.getD 0 0) 1
    false groups width_per_group att_mod
  let (l2, inplanes, dilation) ← ResNet.makeLayer inplanes dilation 128 (layers.getD 1 0) 2
    false groups width_per_group att_mod
  let (l3, inplanes, dilation) ← ResNet.makeLayer inplanes dilation 256 (layers.getD 2 0) 2
    false groups width_per_group att_mod
  let (l4, _, _) ← ResNet.makeLayer inplanes dilation 512 (layers.getD 3 0) 2
    false groups width_per_group att_mod
  pure ⟨conv1, l1, l2, l3, l4⟩

/-- `resnet18(**kwargs)`: `_resnet('resnet18', BasicBlock, [2,2,2,2], ...)`
with defaults `groups=1`, `width_per_group=64`. -/
def resnet18 (in_mod att_mod : Option String) : Except InitError ResNet :=
  ResNet.init [2, 2, 2, 2] 1 64 in_mod att_mod

/-- The backbone built by `RGB_net.__init__`: `resnet18(att_mod='SimAM')`. -/
def rgb_backbone : Except InitError ResNet := resnet18 none (some "SimAM")

/-- The backbone built by `Depth_net.__init__`:
`resnet18(in_mod='Depth', att_mod='SimAM')`. -/
def depth_backbone : Except InitError ResNet := resnet18 (some "Depth") (some "SimAM")

/-- All residual blocks of a `ResNet`, in order. -/
def ResNet.allBlocks (r : ResNet) : List BasicBlock :=
  r.layer1 ++ r.layer2 ++ r.layer3 ++ r.layer4

/-- Whether a layer is a `CD_Conv2d` (any kernel size). -/
def Layer.isCDConv : Layer → Bool
  | Layer.cdConv2d _ _ _ _ _ _ _ _ => true
  | _ => false

/-- Whether a layer is a `CD_Conv2d` with kernel size 3. -/
def Layer.isCD3x3 : Layer → Bool
  | Layer.cdConv2d _ _ k _ _ _ _ _ => k = 3
  | _ => false

/-- Whether a layer is, or is a `Sequential` containing, a 3x3 `CD_Conv2d`. -/
def Layer.containsCD3x3 : Layer → Bool
  | Layer.seq2 a b => a.containsCD3x3 || b.containsCD3x3
  | l => l.isCD3x3

/-- Whether a block's stored `conv2` is a `Sequential` of a 3x3
`CD_Conv2d` followed by a `Sim_AM` layer. -/
def BasicBlock.conv2WrappedWithSimAM (b : BasicBlock) : Bool :=
  match b.conv2 with
  | Layer.seq2 c (Layer.simAM _) => c.isCD3x3
  | _ => false

/-- Structural check used for the claims about a constructed backbone:
construction succeeded, the stem is a `CD_Conv2d`, and every block's
`conv1` is a 3x3 `CD_Conv2d` while its `conv2` contains one. -/
def backboneUsesCDConv (e : Except InitError ResNet) : Bool :=
  match e with
  | Except.ok net =>
      net.conv1.isCDConv &&
        net.allBlocks.all (fun b => b.conv1.isCD3x3 && b.conv2.containsCD3x3)
  | Except.error _ => false

/-- Structural check: construction succeeded and every block's `conv2`
is wrapped in a `Sequential` ending in `Sim_AM`. -/
def backboneAllSimAM (e : Except InitError ResNet) : Bool :=
  match e with
  | Except.ok net => net.allBlocks.all BasicBlock.conv2WrappedWithSimAM
  | Except.error _ => false

/-! ## `src/model/rgbd_model.py` -/

/-- A 2-D feature map (H rows of W reals). -/
abbrev Mat := List (List ℝ)

/-- An image: a list of channel feature maps (C×H×W). -/
abbrev Image := List Mat

/-- A batch of images (B×C×H×W). -/
abbrev Batch := List Image

/-- Sum of all entries of a feature map. -/
def matSum (m : Mat) : ℝ := (m.map List.sum).sum

/-- Number of entries of a feature map. -/
def matNumel (m : Mat) : ℕ := (m.map List.length).sum

/-- Mean of all entries of a feature map. -/
noncomputable def matMean (m : Mat) : ℝ := matSum m / matNumel m

/-- `nn.AdaptiveAvgPool2d(1)` followed by `.squeeze()`: one scalar (the
spatial mean) per channel, per batch element. -/
noncomputable def adaptiveAvgPool1 (x : Batch) : List (List ℝ) :=
  x.map (fun img => img.map matMean)

/-- The logistic sigmoid `1 / (1 + exp(-x))` (`torch.sigmoid`). -/
noncomputable def sigmoid (x : ℝ) : ℝ := 1 / (1 + Real.exp (-x))

/-- Dot product of a weight row with a feature vector. -/
def dot (w v : List ℝ) : ℝ := (List.zipWith (fun a b => a * b) w v).sum

/-- `RGB_net` (`cd_resnet.py`): the resnet18 backbone's numeric forward
semantics are kept abstract as a function field `net` (they depend on
`model/conv.py` and `model/attention.py`, absent from the sources); its
classifier is `nn.Sequential(nn.Linear(960,1), nn.Sigmoid())`, recorded
as a weight row of length 960 and a bias. -/
structure RGB_net where
  net : Batch → Batch
  w : List ℝ
  b : ℝ
  hw : w.length = 960

/-- `RGB_net.forward(x)`: `y = net(x)`; `gap = sigmoid(gavg_pool(y).squeeze())`;
`p = classifier(gap)`; returns `(gap, p)`. -/
noncomputable def RGB_net.forward (self : RGB_net) (x : Batch) :
    List (List ℝ) × List (List ℝ) :=
  let y := self.net x
  let gap := (adaptiveAvgPool1 y).map (fun v => v.map sigmoid)
  let p := gap.map (fun g => [sigmoid (dot self.w g + self.b)])
  (gap, p)

/-- `Depth_net` (`cd_resnet.py`): same shape as `RGB_net`, with its
own backbone (built with `in_mod='Depth'`) and its own
`nn.Sequential(nn.Linear(960,1), nn.Sigmoid())` classifier. -/
structure Depth_net where
  net : Batch → Batch
  w : List ℝ
  b : ℝ
  hw : w.length = 960

/-- `Depth_net.forward(x)`: `y = net(x)`; `gap = sigmoid(gavg_pool(y).squeeze())`;
`q = classifier(gap)`; returns `(gap, q)`. -/
noncomputable def Depth_net.forward (self : Depth_net) (x : Batch) :
    List (List ℝ) × List (List ℝ) :=
  let y := self.net x
  let gap := (adaptiveAvgPool1 y).map (fun v => v.map sigmoid)
  let q := gap.map (fun g => [sigmoid (dot self.w g + self.b)])
  (gap, q)

/-- `RGBD_model` (`rgbd_model.py`): the two branch networks and the joint
classifier `nn.Sequential(nn.Linear(1920,1), nn.Sigmoid())`, recorded as
a weight row of length 1920 and a bias. -/
structure RGBD_model where
  rgb_net : RGB_net
  depth_net : Depth_net
  w : List ℝ
  b : ℝ
  hw : w.length = 1920

/-- `RGBD_model.forward(x_rgb, x_d)`:
`x_d = x_d[:,0:1,:,:]` (keep only the first channel);
`gap_rgb, p = rgb_net(x_rgb)`; `gap_d, q = depth_net(x_d)`;
`gap = torch.cat([gap_rgb, gap_d], dim=1)`; `r = classifier(gap)`;
returns `(gap, r, p, q)`. -/
noncomputable def RGBD_model.forward (self : RGBD_model) (x_rgb x_d : Batch) :
    List (List ℝ) × List (List ℝ) × List (List ℝ) × List (List ℝ) :=
  let x_d := x_d.map (fun img => img.take 1)
  let gr := self.rgb_net.forward x_rgb
  let gd := self.depth_net.forward x_d
  let gap := List.zipWith (fun a b => a ++ b) gr.1 gd.1
  let r := gap.map (fun g => [sigmoid (dot self.w g + self.b)])
  (gap, r, gr.2, gd.2)

/-! ## `src/test.py` -/

/-- The names bound at module level in `test.py` before the line
`acc = Accuracy()` runs: the `import`/`from ... import` bindings
(`nan`, `os`, `NUL`, `NaN`, `torch`, `nn`, `DataLoader`, `transforms`,
`CASIA_SURF`, `read_cfg`, `Total_loss`, `AvgMeter`, `Metric`), the
module-level assignments, and the assignments inside the
`if __name__ == '__main__':` block that precede it. -/
def testScriptNamesInScopeAtAcc : List String :=
  ["nan", "os", "NUL", "NaN", "torch", "nn", "DataLoader", "transforms",
   "CASIA_SURF", "read_cfg", "Total_loss", "AvgMeter", "Metric",
   "device", "cfg", "data_cfg", "test_cfg", "root_dir", "save_path",
   "train_transform", "test_set", "test_loader", "model"]

/-- `torch.where(score > 0.5, 1., 0.)` applied to one score, as in the
prediction step of the evaluation loop of `test.py`. -/
noncomputable def predOfScore (s : ℝ) : ℝ := if s > 0.5 then 1 else 0

/-- The `num_workers` argument of the `DataLoader` built in `test.py`. -/
def testLoaderNumWorkers : ℕ := 2

/-! ## Helper lemmas -/

/-- Swapping the two `pt` tensors turns the code's `wt_a` into its `wt_b`. -/
theorem cmflWtA_swap (m : ℝ) (x y : List ℝ) : cmflWtA m y x = cmflWtB m x y := by
  unfold cmflWtA cmflWtB
  rw [List.zipWith_comm]
  congr 1
  funext pa pb
  ring

/-! ## Claims -/

/-- C1: with the default parameters (`alpha=1, gamma=2, multiplier=2,
binary=False, sg=False`), for probability tensors `a, b` with entries in
`(0,1]` and a target tensor `t` with entries in `{0,1}`,
`CMFLoss.forward(a,b,t)` equals
`0.5*mean((1-w_a)^2*BCE(a,t)) + 0.5*mean((1-w_b)^2*BCE(b,t))` with the
weights of `cmflSpecFormula`, in exact real arithmetic. -/
theorem cmfl_forward_default_matches_spec (a b t : List ℝ)
    (ha : ∀ x ∈ a, 0 < x ∧ x ≤ 1) (hb : ∀ x ∈ b, 0 < x ∧ x ≤ 1)
    (ht : ∀ x ∈ t, x = 0 ∨ x = 1) :
    CMFLoss.default.forward a b t = cmflSpecFormula a b t := by
  simp only [CMFLoss.forward, cmflSpecFormula, CMFLoss.default, cmflWtA, cmflWtB, cmflEps]
  norm_num

/-- C1 witness: the hypotheses hold and the equality is realised at
`a = b = [1/2]`, `t = [1]`. -/
theorem cmfl_forward_default_matches_spec_witness :
    (∀ x ∈ ([1 / 2] : List ℝ), 0 < x ∧ x ≤ 1) ∧
    (∀ x ∈ ([1 / 2] : List ℝ), 0 < x ∧ x ≤ 1) ∧
    (∀ x ∈ ([1] : List ℝ), x = 0 ∨ x = 1) ∧
    CMFLoss.default.forward [1 / 2] [1 / 2] [1] = cmflSpecFormula [1 / 2] [1 / 2] [1] :=
  ⟨by norm_num, by norm_num, by norm_num,
    cmfl_forward_default_matches_spec [1 / 2] [1 / 2] [1]
      (by norm_num) (by norm_num) (by norm_num)⟩

/-- C2: `conv3x3` returns a `CD_Conv2d`, and in both constructed
backbones (the RGB and the Depth stream of the model) the stem
convolution is a `CD_Conv2d` and every `BasicBlock`'s `conv1` and
`conv2` are (or contain, once the attention wrapper is added) a 3x3
`CD_Conv2d`. -/
theorem backbone_every_conv3x3_is_cd_conv :
    (∀ i o s g d, conv3x3 i o s g d = Layer.cdConv2d i o 3 s d g d false) ∧
      backboneUsesCDConv rgb_backbone = true ∧ backboneUsesCDConv depth_backbone = true :=
  ⟨fun _ _ _ _ _ => rfl, by decide, by decide⟩

/-- C3: `RGBD_model.forward(x_rgb, x_d)` returns `(gap, r, p, q)` where
`p` is the RGB branch's classifier output on `x_rgb`, `q` is the depth
branch's classifier output on the first channel of `x_d`, `gap` is the
feature-dimension concatenation of the two branches' pooled feature
vectors, and `r` is the joint classifier (`Linear(1920,1)` then
`Sigmoid`) applied to `gap`. -/
theorem rgbd_forward_components (m : RGBD_model) (x_rgb x_d : Batch) :
    (m.forward x_rgb x_d).2.2.1 = (m.rgb_net.forward x_rgb).2 ∧
    (m.forward x_rgb x_d).2.2.1 =
      ((m.rgb_net.forward x_rgb).1).map (fun g => [sigmoid (dot m.rgb_net.w g + m.rgb_net.b)]) ∧
    (m.forward x_rgb x_d).2.2.2 =
      (m.depth_net.forward (x_d.map (fun img => img.take 1))).2 ∧
    (m.forward x_rgb x_d).1 =
      List.zipWith (fun a b => a ++ b) (m.rgb_net.forward x_rgb).1
        (m.depth_net.forward (x_d.map (fun img => img.take 1))).1 ∧
    (m.forward x_rgb x_d).2.1 =
      ((m.forward x_rgb x_d).1).map (fun g => [sigmoid (dot m.w g + m.b)]) ∧
    m.w.length = 1920 :=
  ⟨rfl, rfl, rfl, rfl, rfl, m.hw⟩

/-- C4: `Total_loss.forward` with the default `lamb=0.7` returns
`(1-0.7)*CrossEntropyLoss(r,targets) +
0.7*(CMFLoss(p,q,targets) + CMFLoss(q,p,targets))`, for any semantics
`cel` of the framework's `CrossEntropyLoss`. -/
theorem total_loss_forward_formula (cel : List ℝ → List ℝ → ℝ) (p q r targets : List ℝ) :
    (Total_loss.mkDefault cel).forward p q r targets =
      (1 - 0.7) * cel r targets +
        0.7 * (CMFLoss.default.forward p q targets + CMFLoss.default.forward q p targets) := rfl

/-- C5: the evaluation loop of `test.py` thresholds the joint score with
`torch.where(score > 0.5, 1., 0.)` — in particular `r = 0.5` is
predicted `0` — but the name `Accuracy` used by `acc = Accuracy()` is
not among the names in scope at that line, so the script raises
`NameError` before any accuracy can be accumulated. -/
theorem test_script_accuracy_name_unbound :
    testScriptNamesInScopeAtAcc.contains "Accuracy" = false ∧ predOfScore 0.5 = 0 := by
  refine ⟨by decide, ?_⟩
  unfold predOfScore
  norm_num

/-- C7: both streams build `resnet18` with `att_mod='SimAM'`; a
`BasicBlock` constructed with `att_mod='SimAM'` stores as `conv2` a
`Sequential` of the 3x3 convolution followed by `Sim_AM(planes)`; and in
both constructed backbones every block's `conv2` is so wrapped. -/
theorem simam_attention_active_in_both_streams :
    rgb_backbone = resnet18 none (some "SimAM") ∧
    depth_backbone = resnet18 (some "Depth") (some "SimAM") ∧
    (∀ inplanes planes stride ds,
      BasicBlock.init inplanes planes stride ds 1 64 1 (some "SimAM") =
        Except.ok
          { conv1 := conv3x3 inplanes planes stride 1 1
            bn1 := Layer.batchNorm2d planes
            conv2 := Layer.seq2 (conv3x3 planes planes 1 1 1) (Layer.simAM planes)
            bn2 := Layer.batchNorm2d planes
            downsample := ds
            stride := stride }) ∧
    backboneAllSimAM rgb_backbone = true ∧ backboneAllSimAM depth_backbone = true :=
  ⟨rfl, rfl, fun _ _ _ _ => rfl, by decide, by decide⟩

/-- C8: with the default parameters (in particular `sg=False`),
`CMFLoss.forward` is symmetric in its first two arguments, and
consequently the focal term of `Total_loss.forward` equals
`2 * criterion_cmfl(p, q, targets)`. -/
theorem cmfl_forward_symmetric_default (cel : List ℝ → List ℝ → ℝ) (a b t : List ℝ) :
    CMFLoss.default.forward a b t = CMFLoss.default.forward b a t ∧
    (Total_loss.mkDefault cel).criterion_cmfl.forward a b t +
        (Total_loss.mkDefault cel).criterion_cmfl.forward b a t =
      2 * (Total_loss.mkDefault cel).criterion_cmfl.forward a b t := by
  have hsym : CMFLoss.default.forward a b t = CMFLoss.default.forward b a t := by
    simp only [CMFLoss.forward, CMFLoss.default]
    norm_num
    set PA := List.map (fun x => Real.exp (-x)) (binary_cross_entropy a t) with hPA
    set PB := List.map (fun x => Real.exp (-x)) (binary_cross_entropy b t) with hPB
    rw [cmflWtA_swap 2 PA PB, (cmflWtA_swap 2 PB PA).symm]
    ring
  refine ⟨hsym, ?_⟩
  show CMFLoss.default.forward a b t + CMFLoss.default.forward b a t =
    2 * CMFLoss.default.forward a b t
  rw [← hsym]
  ring

/-- C9: `RGBD_model.forward` depends on the depth input only through its
first channel: two depth inputs agreeing on channel 0 give identical
outputs `(gap, r, p, q)`. -/
theorem rgbd_forward_depth_channel0_only (m : RGBD_model) (x_rgb x_d x_d' : Batch)
    (h : x_d.map (fun img => img.take 1) = x_d'.map (fun img => img.take 1)) :
    m.forward x_rgb x_d = m.forward x_rgb x_d' := by
  unfold RGBD_model.forward
  rw [h]

/-- A concrete `RGBD_model` (identity backbones, zero classifier
weights) used to witness C9. -/
noncomputable def demoRGBDModel : RGBD_model :=
  ⟨⟨fun x => x, List.replicate 960 0, 0, by rw [List.length_replicate]⟩,
   ⟨fun x => x, List.replicate 960 0, 0, by rw [List.length_replicate]⟩,
   List.replicate 1920 0, 0, by rw [List.length_replicate]⟩

/-- C9 witness: two concrete one-image depth batches that agree on
channel 0 but differ on channel 1 produce the same output. -/
theorem rgbd_forward_depth_channel0_only_witness :
    RGBD_model.forward demoRGBDModel [] [[[[1]], [[2]]]] =
      RGBD_model.forward demoRGBDModel [] [[[[1]], [[3]]]] :=
  rgbd_forward_depth_channel0_only demoRGBDModel [] [[[[1]], [[2]]]] [[[[1]], [[3]]]] rfl

/-- C10: `BasicBlock.__init__` raises `ValueError` iff `groups != 1` or
`base_width != 64`; when that check passes it raises
`NotImplementedError` iff `dilation > 1`; and with `groups=1`,
`base_width=64`, `dilation <= 1` construction completes without raising
either error. -/
theorem basicBlock_init_error_conditions
    (inplanes planes stride : ℕ) (ds : Option Layer)
    (groups base_width dilation : ℕ) (att_mod : Option String) :
    (BasicBlock.init inplanes planes stride ds groups base_width dilation att_mod =
        Except.error InitError.valueError ↔ (groups ≠ 1 ∨ base_width ≠ 64)) ∧
    (groups = 1 → base_width = 64 →
      (BasicBlock.init inplanes planes stride ds groups base_width dilation att_mod =
        Except.error InitError.notImplementedError ↔ dilation > 1)) ∧
    (groups = 1 → base_width = 64 → dilation ≤ 1 →
      ∃ blk, BasicBlock.init inplanes planes stride ds groups base_width dilation att_mod =
        Except.ok blk) := by
  unfold BasicBlock.init
  split_ifs with h1 h2 h3
  · exact ⟨iff_of_true rfl h1,
      fun hg hb => absurd h1 (by simp [hg, hb]),
      fun hg hb _ => absurd h1 (by simp [hg, hb])⟩
  · exact ⟨by simp [h1], fun _ _ => by simp [h2], fun _ _ hd => absurd h2 (by omega)⟩
  · exact ⟨by simp [h1], fun _ _ => by simp [h2], fun _ _ _ => ⟨_, rfl⟩⟩
  · exact ⟨by simp [h1], fun _ _ => by simp [h2], fun _ _ _ => ⟨_, rfl⟩⟩

/-- C10 witness: at concrete arguments, `groups=2` yields `ValueError`,
`dilation=2` yields `NotImplementedError`, and the default-style
arguments construct a block. -/
theorem basicBlock_init_error_conditions_witness :
    BasicBlock.init 64 64 1 none 2 64 1 none = Except.error InitError.valueError ∧
    BasicBlock.init 64 64 1 none 1 64 2 none = Except.error InitError.notImplementedError ∧
    ∃ blk, BasicBlock.init 64 64 1 none 1 64 1 none = Except.ok blk :=
  ⟨((basicBlock_init_error_conditions 64 64 1 none 2 64 1 none).1).mpr (by decide),
   ((basicBlock_init_error_conditions 64 64 1 none 1 64 2 none).2.1 rfl rfl).mpr (by decide),
   (basicBlock_init_error_conditions 64 64 1 none 1 64 1 none).2.2 rfl rfl (by decide)⟩
